import Mathlib

/-!
Shallow embedding of the Bitrix worker pipeline (queue-driven document
evaluation worker) and proofs about it.

The embedding follows the TypeScript sources:
  - src/index.ts          : queue worker (processContentChunks,
                            generateFinalSummary, saveAIScreeningResult,
                            publishCompletionNotification, processSubmission,
                            safePopFromQueue, startWorker, reconnectStrategy)
  - src/lib/actions/evaluate-deal.ts : evaluateDealAndSaveResult
  - src/routes/screen-deal.ts        : the /screen-deal route with the
                                       idempotency (dedup) markers
  - src/lib/utils splitContentIntoChunks is imported by the sources but its
    file is not part of the snapshot; it is modelled from the spec where
    needed.

External effects (the text-generation capability, the database, Redis) are
modelled by explicit oracles: each call site consumes the oracle's outcome
for that call, so every possible pattern of success and failure of the
environment is a concrete input to the embedded functions.
-/

/-- Outcome of one call to the external text-generation capability
(`generateText`): either generated text or a thrown error. -/
inductive CapResult where
  | ok (text : String)
  | err
deriving DecidableEq, Repr

/-- The error sentinel pushed by `processContentChunks` when a chunk's
evaluation throws (src/index.ts line 227). -/
def errorSentinel : String := "[Error processing chunk]"

/-- The section delimiter used to join chunk summaries
(src/index.ts line 347, src/lib/actions/evaluate-deal.ts line 77). -/
def sectionDelimiter : String := "\n\n=== Next Section ===\n\n"

/-- Embedding of `processContentChunks` (src/index.ts lines 175-232).
The loop walks the chunks with their index `i`; a falsy chunk (the empty
string, mirroring the JS `if (!chunk) continue`) is skipped entirely; for
a truthy chunk the capability is invoked (`cap i` gives that call's
outcome), and a thrown error is swallowed by pushing the error sentinel. -/
def processContentChunks (cap : Nat → CapResult) : List String → Nat → List String
  | [], _ => []
  | c :: rest, i =>
    if c = "" then processContentChunks cap rest (i + 1)
    else
      match cap i with
      | .ok t => t :: processContentChunks cap rest (i + 1)
      | .err => errorSentinel :: processContentChunks cap rest (i + 1)

/-- Embedding of the per-chunk loop of `evaluateDealAndSaveResult`
(src/lib/actions/evaluate-deal.ts lines 66-75).  The loop has no per-chunk
try/catch: a throw from `generateText` propagates, aborting the whole
batch (it is only caught by the function's outermost catch). -/
def evalChunkLoop (cap : Nat → CapResult) : List String → Nat → Except Unit (List String)
  | [], _ => .ok []
  | _ :: rest, i =>
    match cap i with
    | .ok t => (evalChunkLoop cap rest (i + 1)).map (fun l => t :: l)
    | .err => .error ()

/-- Maximum chunk size used by the chunker model. -/
def chunkMaxSize : Nat := 1000

/-- Accumulating splitter: walks the characters keeping a reversed buffer
`buf`; when the buffer reaches `maxLen` characters it is flushed as one
chunk. -/
def chunkGo (maxLen : Nat) : List Char → List Char → List (List Char)
  | buf, [] => if buf.isEmpty then [] else [buf.reverse]
  | buf, c :: rest =>
    if maxLen ≤ (c :: buf).length then (c :: buf).reverse :: chunkGo maxLen [] rest
    else chunkGo maxLen (c :: buf) rest

/-- Modelled from the spec: `splitContentIntoChunks` lives in
`src/lib/utils`, which is imported by src/index.ts and
src/lib/actions/evaluate-deal.ts but is not part of the source snapshot.
The spec (section 4.1) requires: a pure, deterministic split of the content
into bounded-size chunks preserving original order, whose in-order
concatenation reconstructs the content, and the empty sequence for empty
content. -/
def splitContentIntoChunks (s : String) : List String :=
  (chunkGo chunkMaxSize [] s.data).map String.mk

/-- Sentiment enumeration, mirroring the Prisma `Sentiment` enum and the
zod `z.enum(["POSITIVE", "NEGATIVE", "NEUTRAL"])` schema. -/
inductive Sentiment where
  | POSITIVE
  | NEGATIVE
  | NEUTRAL
deriving DecidableEq, Repr

/-- Embedding of the JS truthiness test on a number: `0` is falsy, every
other rational is truthy (NaN, the other falsy number, has no rational
counterpart). -/
def jsTruthy (q : ℚ) : Bool := q != 0

/-- Embedding of JS `Math.round`: round to the nearest integer, ties
toward positive infinity, i.e. the floor of `q + 1/2`. -/
def jsRound (q : ℚ) : ℤ := ⌊q + 1 / 2⌋

/-- Embedding of the persisted score expression
`evaluation.score ? Math.round(evaluation.score) : null`
(src/lib/actions/evaluate-deal.ts line 129). -/
def storedScore (q : ℚ) : Option ℤ :=
  if jsTruthy q then some (jsRound q) else none

/-- Embedding of the sentiment normalisation in `evaluateDealAndSaveResult`
(src/lib/actions/evaluate-deal.ts lines 107-121): start from NEUTRAL; if
the evaluation's sentiment field is truthy (present and non-empty), map
"POSITIVE" and "NEGATIVE" to their enum values and everything else
(including "NEUTRAL" and any invalid string) to NEUTRAL. -/
def sentimentFromEvaluation (s : Option String) : Sentiment :=
  match s with
  | none => .NEUTRAL
  | some v =>
    if v = "" then .NEUTRAL
    else if v = "POSITIVE" then .POSITIVE
    else if v = "NEGATIVE" then .NEGATIVE
    else .NEUTRAL

/-- Row shape of the `aiScreening` record persisted by
`prismaDB.aiScreening.create` (src/lib/actions/evaluate-deal.ts
lines 124-134). -/
structure AiScreeningRecord where
  dealId : String
  title : String
  explanation : String
  score : Option ℤ
  sentiment : Sentiment
  content : String
  screenerId : Option String
deriving DecidableEq, Repr

/-- Embedding of the `data` object passed to `prismaDB.aiScreening.create`
by `evaluateDealAndSaveResult` (src/lib/actions/evaluate-deal.ts
lines 124-134). -/
def mkAiScreeningRecord (dealId : String) (evTitle : String)
    (evExplanation : String) (evScore : ℚ) (evSentiment : Option String)
    (combined : String) (screenerId : Option String) : AiScreeningRecord :=
  { dealId := dealId
    title := evTitle
    explanation := evExplanation
    score := storedScore evScore
    sentiment := sentimentFromEvaluation evSentiment
    content := combined
    screenerId := screenerId }

/-- The structured verdict produced by `generateObject` with the zod
schema {title, score, sentiment, explanation} (src/index.ts lines 245-250,
src/lib/actions/evaluate-deal.ts lines 88-93).  A value of this type has
passed schema validation. -/
structure AIScreeningResult where
  title : String
  score : ℚ
  sentiment : Sentiment
  explanation : String
deriving DecidableEq, Repr

/-- Externally observable side effects of one submission's processing:
capability invocations, persistence (create) calls, and notifications
published with status "done" respectively "failed". -/
structure Effects where
  capCalls : Nat
  saves : Nat
  doneNotifications : Nat
  failedNotifications : Nat
deriving DecidableEq, Repr

/-- Embedding of `processSubmission` (src/index.ts lines 324-385).
Oracles: `cap` gives each chunk-evaluation call's outcome, `agg` is the
result of `generateFinalSummary` (`none` when `generateObject` threw or
failed validation, src/index.ts lines 237-261), `saveOk` the outcome of
`saveAIScreeningResult`.  Empty chunk output returns failure before any
capability call; aggregation failure returns failure with no save; a save
failure returns failure without a notification; only the full success path
publishes the (single, "done") completion notification — the worker has no
"failed" notification path. -/
def processSubmission (content : String) (cap : Nat → CapResult)
    (agg : Option AIScreeningResult) (saveOk : Bool) : Bool × Effects :=
  let chunks := splitContentIntoChunks content
  if chunks.length = 0 then (false, ⟨0, 0, 0, 0⟩)
  else
    let summaries := processContentChunks cap chunks 0
    let _combined := String.intercalate sectionDelimiter summaries
    let calls := (chunks.filter (fun c => c != "")).length
    match agg with
    | none => (false, ⟨calls, 0, 0, 0⟩)
    | some _ =>
      if saveOk then (true, ⟨calls, 1, 1, 0⟩)
      else (false, ⟨calls, 1, 0, 0⟩)

/-- Oracle for one run of `evaluateDealAndSaveResult`: the database lookup
results, the per-chunk capability outcomes, the `generateObject` result
(`none` when it threw or failed schema validation), and the outcome of the
`aiScreening.create` call. -/
structure EvalDealOracle where
  dealFound : Bool
  screenerFound : Bool
  chunkCap : Nat → CapResult
  aggResult : Option AIScreeningResult
  saveOk : Bool

/-- Result of `evaluateDealAndSaveResult`: the returned success flag, the
number of `aiScreening.create` calls attempted, the number of records
actually created, and the created record when there is one. -/
structure EvalDealResult where
  success : Bool
  saveAttempts : Nat
  created : Nat
  record : Option AiScreeningRecord
deriving DecidableEq, Repr

/-- Embedding of `evaluateDealAndSaveResult`
(src/lib/actions/evaluate-deal.ts lines 15-149).  Missing deal or screener
returns failure; the per-chunk loop has no per-chunk handler, so a chunk
failure is caught only by the outermost catch (failure, nothing
persisted); a `generateObject` failure is caught by the inner catch
(failure, nothing persisted); otherwise the record is built (score via
`storedScore`, sentiment via `sentimentFromEvaluation`) and `create` is
attempted — a throwing create falls to the outermost catch (failure, call
attempted, nothing created). -/
def evaluateDealAndSaveResult (dealId screenerId : String)
    (screenerContent : String) (o : EvalDealOracle) : EvalDealResult :=
  if !o.dealFound then ⟨false, 0, 0, none⟩
  else if !o.screenerFound then ⟨false, 0, 0, none⟩
  else
    let chunks := splitContentIntoChunks screenerContent
    match evalChunkLoop o.chunkCap chunks 0 with
    | .error _ => ⟨false, 0, 0, none⟩
    | .ok summaries =>
      let combined := String.intercalate sectionDelimiter summaries
      match o.aggResult with
      | none => ⟨false, 0, 0, none⟩
      | some ev =>
        let r := mkAiScreeningRecord dealId ev.title ev.explanation ev.score
          (some (match ev.sentiment with
            | .POSITIVE => "POSITIVE"
            | .NEGATIVE => "NEGATIVE"
            | .NEUTRAL => "NEUTRAL"))
          combined (some screenerId)
        if o.saveOk then ⟨true, 1, 1, some r⟩ else ⟨false, 1, 0, none⟩

/-- Marker store: a list of (key, absolute expiry time) pairs, modelling
Redis keys written with `SET key "1" EX ttl`. -/
abbrev MarkerStore := List (String × Nat)

/-- A key exists in the marker store at time `now` when some entry for it
has not yet expired (Redis `EXISTS`, with expired keys gone). -/
def markerUnexpired (st : MarkerStore) (k : String) (now : Nat) : Bool :=
  st.any (fun e => e.1 == k && decide (now < e.2))

/-- Setting a marker that expires `ttl` seconds from `now`. -/
def markerSet (st : MarkerStore) (k : String) (expiry : Nat) : MarkerStore :=
  (k, expiry) :: st

/-- The message-scoped dedup key `pubsub:processed:<messageId>`
(src/routes/screen-deal.ts line 141). -/
def dedupKeyOf (messageId : Option String) : Option String :=
  messageId.map (fun m => "pubsub:processed:" ++ m)

/-- The submission/job-scoped dedup key `job:<jobId>:processed`
(src/routes/screen-deal.ts line 142). -/
def jobKeyOf (jobId : String) : String := "job:" ++ jobId ++ ":processed"

/-- Expiry of the message-scoped marker: 1 hour
(src/routes/screen-deal.ts line 161). -/
def messageMarkerTtl : Nat := 3600

/-- Expiry of the job-scoped marker: 24 hours
(src/routes/screen-deal.ts line 162). -/
def jobMarkerTtl : Nat := 86400

/-- A validated /screen-deal request: the payload fields the dedup logic
and the evaluation use, plus the Pub/Sub message id when present. -/
structure ScreenDealRequest where
  jobId : String
  messageId : Option String
  dealId : String
  screenerId : String
deriving DecidableEq, Repr

/-- Observable state threaded through the /screen-deal route: the marker
store, the number of persisted ProcessingRecords (aiScreening rows), and
the job-updates publications (jobId, status), most recent first. -/
structure RouteState where
  markers : MarkerStore
  records : Nat
  jobUpdates : List (String × String)
deriving DecidableEq, Repr

/-- Embedding of the deduplicating /screen-deal handler
(src/routes/screen-deal.ts lines 96-233, the variant with the dedup
markers).  If either the message-scoped or the job-scoped marker is
unexpired, the request is skipped with no record and no publication.
Otherwise both markers are set (message marker for 1h when a message id is
present, job marker for 24h) before any work, a "processing" update is
published, the evaluation runs, and exactly one of "done" / "failed" is
published depending on its success. -/
def handleScreenDeal (st : RouteState) (req : ScreenDealRequest) (now : Nat)
    (screenerContent : String) (o : EvalDealOracle) : RouteState :=
  let dk := dedupKeyOf req.messageId
  let jk := jobKeyOf req.jobId
  let hasMessage := match dk with
    | some k => markerUnexpired st.markers k now
    | none => false
  let hasJob := markerUnexpired st.markers jk now
  if hasMessage || hasJob then st
  else
    let m1 := match dk with
      | some k => markerSet st.markers k (now + messageMarkerTtl)
      | none => st.markers
    let m2 := markerSet m1 jk (now + jobMarkerTtl)
    let ev := evaluateDealAndSaveResult req.dealId req.screenerId
      screenerContent o
    { markers := m2
      records := st.records + ev.created
      jobUpdates :=
        (req.jobId, if ev.success then "done" else "failed")
          :: (req.jobId, "processing") :: st.jobUpdates }

/-- Retry/delay constants of the worker (src/index.ts lines 11-14). -/
def WORKER_DELAY_MS : Nat := 2000

/-- Delay between Redis retry attempts (src/index.ts line 13). -/
def REDIS_RETRY_DELAY : Nat := 5000

/-- Maximum retries inside `safePopFromQueue` (src/index.ts line 14). -/
def MAX_RETRIES : Nat := 3

/-- Embedding of the Redis client's `reconnectStrategy`
(src/index.ts lines 48-54): after more than 10 attempts the client gives
up (returns an Error, modelled as `none`); otherwise the reconnect delay
is `min (retries * 1000) 3000` milliseconds. -/
def reconnectStrategy (retries : Nat) : Option Nat :=
  if retries > 10 then none else some (min (retries * 1000) 3000)

/-- Outcome of one retry round inside `safePopFromQueue`: the health check
failed and reconnection failed too (retry), the `lPop` call threw (retry),
or the client reached `lPop` and it returned normally (pop). -/
inductive PopAttempt where
  | unhealthyNoReconnect
  | throwing
  | pops
deriving DecidableEq, Repr

/-- Retry loop of `safePopFromQueue` (src/index.ts lines 137-170): at most
`fuel` rounds; each failing round consumes one retry; a round that reaches
a successful `lPop` removes and returns the queue head (or `none` on an
empty queue).  When all retries are exhausted, `null` (here `none`) is
returned and the queue is untouched — the function never throws. -/
def safePopGo (ora : Nat → PopAttempt) (q : List String) :
    Nat → Nat → Option String × List String
  | _, 0 => (none, q)
  | i, fuel + 1 =>
    match ora i with
    | .unhealthyNoReconnect => safePopGo ora q (i + 1) fuel
    | .throwing => safePopGo ora q (i + 1) fuel
    | .pops =>
      match q with
      | [] => (none, q)
      | h :: t => (some h, t)

/-- Embedding of `safePopFromQueue` (src/index.ts lines 137-170): run the
retry loop starting at attempt 0 with `MAX_RETRIES` rounds available. -/
def safePopFromQueue (ora : Nat → PopAttempt) (q : List String) :
    Option String × List String :=
  safePopGo ora q 0 MAX_RETRIES

/-- Mutable state of the worker's main loop (src/index.ts lines 445-447)
together with the queue contents it consumes. -/
structure LoopState where
  processedCount : Nat
  errorCount : Nat
  consecutiveErrors : Nat
  queue : List String
deriving DecidableEq, Repr

/-- Oracle for one iteration of the main loop: whether an unexpected error
is thrown inside the try block (caught by the outer catch), the top-of-loop
health check and reconnection results, the `safePopFromQueue` round
outcomes, and the JSON-parse and `processSubmission` results for a popped
submission. -/
structure IterOracle where
  bodyThrows : Bool
  healthy : Bool
  reconnectOk : Bool
  popAttempts : Nat → PopAttempt
  parseOk : Bool
  processOk : Bool

/-- Result of one iteration of the worker loop: the loop either continues
with a new state after sleeping `delayMs`, or the process would crash.
The embedding of the loop body never produces `crash`: every error path is
caught. -/
inductive IterOutcome where
  | next (s : LoopState) (delayMs : Nat)
  | crash

/-- True when the iteration continues the loop. -/
def IterOutcome.isNext : IterOutcome → Bool
  | .next _ _ => true
  | .crash => false

/-- Sleep requested by the iteration. -/
def IterOutcome.delay : IterOutcome → Nat
  | .next _ d => d
  | .crash => 0

/-- Embedding of one iteration of the main `while (true)` loop of
`startWorker` (src/index.ts lines 452-534).  The whole body sits in a
try/catch: when anything inside throws (`bodyThrows`), the catch increments
the error counters, waits 10s after more than 5 consecutive errors (else
5s), and above 10 consecutive errors forces a reconnect and resets the
counter — the loop always continues.  Otherwise: an unhealthy client that
also fails to reconnect waits `REDIS_RETRY_DELAY` and continues; an empty
pop sleeps 1s; a popped submission is JSON-parsed (a parse failure counts
an error and continues — the popped payload is not requeued) and processed,
and the loop sleeps `WORKER_DELAY_MS` before the next cycle. -/
def workerLoopIter (s : LoopState) (o : IterOracle) : IterOutcome :=
  if o.bodyThrows then
    let consec := s.consecutiveErrors + 1
    let wait := if consec > 5 then 10000 else 5000
    .next { s with
      errorCount := s.errorCount + 1
      consecutiveErrors := if consec > 10 then 0 else consec } wait
  else if !o.healthy && !o.reconnectOk then
    .next s REDIS_RETRY_DELAY
  else
    match (safePopFromQueue o.popAttempts s.queue).1 with
    | none =>
      .next { s with queue := (safePopFromQueue o.popAttempts s.queue).2 } 1000
    | some _ =>
      if !o.parseOk then
        .next { s with
          queue := (safePopFromQueue o.popAttempts s.queue).2
          errorCount := s.errorCount + 1
          consecutiveErrors := 0 } 0
      else if o.processOk then
        .next { s with
          queue := (safePopFromQueue o.popAttempts s.queue).2
          processedCount := s.processedCount + 1
          consecutiveErrors := 0 } WORKER_DELAY_MS
      else
        .next { s with
          queue := (safePopFromQueue o.popAttempts s.queue).2
          errorCount := s.errorCount + 1
          consecutiveErrors := 0 } WORKER_DELAY_MS

lemma processContentChunks_enumFrom (cap : Nat → CapResult) :
    ∀ (chunks : List String) (i : Nat),
      processContentChunks cap chunks i
        = ((List.enumFrom i chunks).filter (fun p => p.2 != "")).map
            (fun p => match cap p.1 with
              | .ok t => t
              | .err => errorSentinel) := by
  intro chunks
  induction chunks with
  | nil => intro i; rfl
  | cons c rest ih =>
    intro i
    by_cases h : c = ""
    · simp [processContentChunks, List.enumFrom, h, ih]
    · cases hc : cap i with
      | ok t => simp [processContentChunks, List.enumFrom, h, hc, ih]
      | err => simp [processContentChunks, List.enumFrom, h, hc, ih]

lemma evalChunkLoop_err (cap : Nat → CapResult) :
    ∀ (chunks : List String) (i j : Nat),
      j < chunks.length → cap (i + j) = CapResult.err →
        evalChunkLoop cap chunks i = .error () := by
  intro chunks
  induction chunks with
  | nil => intro i j hj _; simp at hj
  | cons c rest ih =>
    intro i j hj he
    cases hc : cap i with
    | err => simp [evalChunkLoop, hc]
    | ok t =>
      cases j with
      | zero => rw [Nat.add_zero] at he; rw [he] at hc; cases hc
      | succ j' =>
        have hj' : j' < rest.length := Nat.lt_of_succ_lt_succ hj
        have he' : cap ((i + 1) + j') = CapResult.err := by
          rw [show (i + 1) + j' = i + (j' + 1) by omega]; exact he
        simp [evalChunkLoop, hc, ih (i + 1) j' hj' he', Except.map]

lemma chunkGo_flatten (maxLen : Nat) :
    ∀ (l buf : List Char), (chunkGo maxLen buf l).flatten = buf.reverse ++ l := by
  intro l
  induction l with
  | nil =>
    intro buf
    by_cases h : buf.isEmpty
    · simp [chunkGo, h, List.isEmpty_iff.mp h]
    · simp [chunkGo, h]
  | cons c rest ih =>
    intro buf
    by_cases h : maxLen ≤ (c :: buf).length
    · rw [chunkGo, if_pos h]
      simp [ih, List.append_assoc]
    · rw [chunkGo, if_neg h, ih (c :: buf)]
      simp

lemma join_map_mk :
    ∀ (cs : List (List Char)) (acc : List Char),
      (cs.map String.mk).foldl (fun a b => a ++ b) (String.mk acc)
        = String.mk (acc ++ cs.flatten) := by
  intro cs
  induction cs with
  | nil => intro acc; simp
  | cons c rest ih =>
    intro acc
    have hstep : String.mk acc ++ String.mk c = String.mk (acc ++ c) := rfl
    simp only [List.map_cons, List.foldl_cons, hstep, List.flatten_cons, ih,
      List.append_assoc]

lemma join_splitContentIntoChunks (s : String) :
    String.join (splitContentIntoChunks s) = s := by
  have h1 : String.join (splitContentIntoChunks s)
      = String.mk ([] ++ (chunkGo chunkMaxSize [] s.data).flatten) := by
    rw [String.join, splitContentIntoChunks]
    exact join_map_mk (chunkGo chunkMaxSize [] s.data) []
  rw [h1, List.nil_append, chunkGo_flatten]
  rfl

lemma safePopGo_succ (ora : Nat → PopAttempt) (q : List String) (i n : Nat) :
    safePopGo ora q i (n + 1) =
      match ora i with
      | .unhealthyNoReconnect => safePopGo ora q (i + 1) n
      | .throwing => safePopGo ora q (i + 1) n
      | .pops =>
        match q with
        | [] => (none, q)
        | h :: t => (some h, t) := rfl

lemma safePopGo_none (ora : Nat → PopAttempt) (q : List String) :
    ∀ (fuel i : Nat), (safePopGo ora q i fuel).1 = none →
      (safePopGo ora q i fuel).2 = q := by
  intro fuel
  induction fuel with
  | zero => intro i _; rfl
  | succ n ih =>
    intro i h
    cases ho : ora i with
    | unhealthyNoReconnect =>
      simp only [safePopGo_succ, ho] at h ⊢
      exact ih (i + 1) h
    | throwing =>
      simp only [safePopGo_succ, ho] at h ⊢
      exact ih (i + 1) h
    | pops =>
      simp only [safePopGo_succ, ho] at h ⊢
      cases q with
      | nil => rfl
      | cons a t => simp at h

lemma safePopGo_some (ora : Nat → PopAttempt) (q : List String) :
    ∀ (fuel i : Nat) (v : String), (safePopGo ora q i fuel).1 = some v →
      q = v :: (safePopGo ora q i fuel).2 := by
  intro fuel
  induction fuel with
  | zero => intro i v h; simp [safePopGo] at h
  | succ n ih =>
    intro i v h
    cases ho : ora i with
    | unhealthyNoReconnect =>
      simp only [safePopGo_succ, ho] at h ⊢
      exact ih (i + 1) v h
    | throwing =>
      simp only [safePopGo_succ, ho] at h ⊢
      exact ih (i + 1) v h
    | pops =>
      simp only [safePopGo_succ, ho] at h ⊢
      cases q with
      | nil => simp at h
      | cons a t =>
        simp at h
        simp [h]

lemma safePopGo_length (ora : Nat → PopAttempt) (q : List String) :
    ∀ (fuel i : Nat), (safePopGo ora q i fuel).2.length ≤ q.length := by
  intro fuel
  induction fuel with
  | zero => intro i; exact le_refl _
  | succ n ih =>
    intro i
    cases ho : ora i with
    | unhealthyNoReconnect => simp only [safePopGo_succ, ho]; exact ih (i + 1)
    | throwing => simp only [safePopGo_succ, ho]; exact ih (i + 1)
    | pops =>
      simp only [safePopGo_succ, ho]
      cases q with
      | nil => exact le_refl _
      | cons a t => simp

lemma evaluateDealAndSaveResult_created_le_one (dealId screenerId content : String)
    (o : EvalDealOracle) :
    (evaluateDealAndSaveResult dealId screenerId content o).created ≤ 1 := by
  unfold evaluateDealAndSaveResult
  repeat' split
  all_goals
    rcases hev : evalChunkLoop o.chunkCap (splitContentIntoChunks content) 0 with _ | s <;>
      simp [hev]

lemma handleScreenDeal_skip (st : RouteState) (req : ScreenDealRequest)
    (now : Nat) (content : String) (o : EvalDealOracle)
    (h : markerUnexpired st.markers (jobKeyOf req.jobId) now = true) :
    handleScreenDeal st req now content o = st := by
  unfold handleScreenDeal
  simp only [h, Bool.or_true, if_true]

lemma handleScreenDeal_fresh (st : RouteState) (req : ScreenDealRequest)
    (now : Nat) (content : String) (o : EvalDealOracle)
    (hm : (match dedupKeyOf req.messageId with
      | some k => markerUnexpired st.markers k now
      | none => false) = false)
    (hj : markerUnexpired st.markers (jobKeyOf req.jobId) now = false) :
    handleScreenDeal st req now content o =
      { markers := markerSet
          (match dedupKeyOf req.messageId with
            | some k => markerSet st.markers k (now + messageMarkerTtl)
            | none => st.markers)
          (jobKeyOf req.jobId) (now + jobMarkerTtl)
        records := st.records
          + (evaluateDealAndSaveResult req.dealId req.screenerId content o).created
        jobUpdates :=
          (req.jobId,
            if (evaluateDealAndSaveResult req.dealId req.screenerId content o).success
            then "done" else "failed")
            :: (req.jobId, "processing") :: st.jobUpdates } := by
  simp only [handleScreenDeal]
  rw [hm, hj]
  simp

lemma evaluateDealAndSaveResult_agg_failure (dealId screenerId content : String)
    (o : EvalDealOracle) (ss : List String)
    (hd : o.dealFound = true) (hs : o.screenerFound = true)
    (hok : evalChunkLoop o.chunkCap (splitContentIntoChunks content) 0 = .ok ss)
    (hagg : o.aggResult = none) :
    evaluateDealAndSaveResult dealId screenerId content o
      = ⟨false, 0, 0, none⟩ := by
  unfold evaluateDealAndSaveResult
  simp [hd, hs, hok, hagg]

/-- C1: the claim states that both `processContentChunks` and the per-chunk
loop of `evaluateDealAndSaveResult` return exactly N summaries for N input
chunks, substituting the error sentinel on a per-chunk failure and never
aborting the batch.  This is false on both counts: `processContentChunks`
silently skips falsy (empty) chunks, so on the chunk list ["", "a"] with an
always-succeeding capability it returns 1 summary instead of 2; and the
per-chunk loop of `evaluateDealAndSaveResult` has no per-chunk handler, so
a failing chunk aborts the whole batch with an error instead of
substituting the sentinel. -/
theorem C1_claim_counterexample :
    (processContentChunks (fun _ => CapResult.ok "t") ["", "a"] 0).length = 1
    ∧ ¬ (processContentChunks (fun _ => CapResult.ok "t") ["", "a"] 0).length = 2
    ∧ evalChunkLoop (fun _ => CapResult.err) ["a"] 0 = .error () := by
  refine ⟨rfl, by decide, rfl⟩

/-- C1 (amended): `processContentChunks` equals, extensionally, the
in-order map over the index-enumerated chunk list restricted to truthy
(non-empty) chunks: exactly one summary per truthy chunk, in chunk order,
each summary being the capability's text for that chunk's own call when it
succeeded and the error sentinel when that call failed — falsy chunks are
skipped, and the shape of the output is fully determined by the chunk list
and the per-index outcomes, so a per-chunk failure never aborts the batch.
The per-chunk loop of `evaluateDealAndSaveResult`, in contrast, aborts
with an error as soon as any chunk's evaluation fails. -/
theorem C1_amended :
    (∀ (cap : Nat → CapResult) (chunks : List String),
      processContentChunks cap chunks 0
        = ((List.enumFrom 0 chunks).filter (fun p => p.2 != "")).map
            (fun p => match cap p.1 with
              | .ok t => t
              | .err => errorSentinel))
    ∧ (∀ (cap : Nat → CapResult) (chunks : List String) (j : Nat),
        j < chunks.length → cap j = CapResult.err →
          evalChunkLoop cap chunks 0 = .error ()) := by
  refine ⟨fun cap chunks => processContentChunks_enumFrom cap chunks 0,
    fun cap chunks j hj he => evalChunkLoop_err cap chunks 0 j hj ?_⟩
  rw [Nat.zero_add]
  exact he

/-- C1 witness: the amended theorem applied at concrete inputs — three
non-empty chunks with the capability failing exactly on the middle call
yield, in order, the first call's text, the sentinel, and the third call's
text; and the evaluate-deal loop aborts on a failing chunk. -/
theorem C1_amended_witness :
    processContentChunks
        (fun i : Nat => if i = 1 then CapResult.err else CapResult.ok "good")
        ["a", "b", "c"] 0
      = ["good", errorSentinel, "good"]
    ∧ evalChunkLoop (fun _ : Nat => CapResult.err) ["a"] 0 = .error () := by
  constructor
  · rw [C1_amended.1
      (fun i : Nat => if i = 1 then CapResult.err else CapResult.ok "good")
      ["a", "b", "c"]]
    rfl
  · exact C1_amended.2 (fun _ : Nat => CapResult.err) ["a"] 0 (by decide) rfl

/-- C2: processing the same job id twice through the /screen-deal handler,
the second arrival while the 24h job marker is unexpired, results in the
second request being skipped entirely (state unchanged): at most one
ProcessingRecord is created and at most one "done" notification is
published across both arrivals, and after the first (non-skipped) arrival
the job-scoped marker is set — both markers are set before the evaluation
work runs, as the `handleScreenDeal` definition shows. -/
theorem C2_dedup_idempotent (req1 req2 : ScreenDealRequest) (t1 t2 : Nat)
    (content : String) (o1 o2 : EvalDealOracle)
    (hjob : req2.jobId = req1.jobId) (h24 : t2 < t1 + jobMarkerTtl) :
    handleScreenDeal (handleScreenDeal ⟨[], 0, []⟩ req1 t1 content o1)
        req2 t2 content o2
      = handleScreenDeal ⟨[], 0, []⟩ req1 t1 content o1
    ∧ (handleScreenDeal (handleScreenDeal ⟨[], 0, []⟩ req1 t1 content o1)
        req2 t2 content o2).records ≤ 1
    ∧ ((handleScreenDeal (handleScreenDeal ⟨[], 0, []⟩ req1 t1 content o1)
        req2 t2 content o2).jobUpdates.filter
          (fun u => u.2 == "done")).length ≤ 1
    ∧ markerUnexpired
        (handleScreenDeal ⟨[], 0, []⟩ req1 t1 content o1).markers
        (jobKeyOf req1.jobId) t2 = true := by
  have hfresh := handleScreenDeal_fresh ⟨[], 0, []⟩ req1 t1 content o1
    (by cases dedupKeyOf req1.messageId <;> rfl) rfl
  have hmark : markerUnexpired
      (handleScreenDeal ⟨[], 0, []⟩ req1 t1 content o1).markers
      (jobKeyOf req1.jobId) t2 = true := by
    rw [hfresh]
    simp [markerUnexpired, markerSet, h24]
  have hskip : handleScreenDeal (handleScreenDeal ⟨[], 0, []⟩ req1 t1 content o1)
      req2 t2 content o2
      = handleScreenDeal ⟨[], 0, []⟩ req1 t1 content o1 := by
    apply handleScreenDeal_skip
    rw [hjob]
    exact hmark
  refine ⟨hskip, ?_, ?_, hmark⟩
  · rw [hskip, hfresh]
    simpa using evaluateDealAndSaveResult_created_le_one req1.dealId
      req1.screenerId content o1
  · rw [hskip, hfresh]
    by_cases hsucc :
        (evaluateDealAndSaveResult req1.dealId req1.screenerId content o1).success
    · simp [hsucc, List.filter]
    · simp [hsucc, List.filter]

/-- C2 witness: the theorem applied to a concrete pair of arrivals of job
"j1" at times 0 and 100. -/
theorem C2_dedup_idempotent_witness :
    handleScreenDeal
        (handleScreenDeal ⟨[], 0, []⟩ ⟨"j1", some "m1", "d1", "s1"⟩ 0 "c"
          ⟨true, true, fun _ => CapResult.ok "t",
            some ⟨"t", 5, Sentiment.POSITIVE, "e"⟩, true⟩)
        ⟨"j1", some "m2", "d1", "s1"⟩ 100 "c"
        ⟨true, true, fun _ => CapResult.ok "t",
          some ⟨"t", 5, Sentiment.POSITIVE, "e"⟩, true⟩
      = handleScreenDeal ⟨[], 0, []⟩ ⟨"j1", some "m1", "d1", "s1"⟩ 0 "c"
          ⟨true, true, fun _ => CapResult.ok "t",
            some ⟨"t", 5, Sentiment.POSITIVE, "e"⟩, true⟩
    ∧ (handleScreenDeal
        (handleScreenDeal ⟨[], 0, []⟩ ⟨"j1", some "m1", "d1", "s1"⟩ 0 "c"
          ⟨true, true, fun _ => CapResult.ok "t",
            some ⟨"t", 5, Sentiment.POSITIVE, "e"⟩, true⟩)
        ⟨"j1", some "m2", "d1", "s1"⟩ 100 "c"
        ⟨true, true, fun _ => CapResult.ok "t",
          some ⟨"t", 5, Sentiment.POSITIVE, "e"⟩, true⟩).records ≤ 1 := by
  have h := C2_dedup_idempotent ⟨"j1", some "m1", "d1", "s1"⟩
    ⟨"j1", some "m2", "d1", "s1"⟩ 0 100 "c"
    ⟨true, true, fun _ => CapResult.ok "t",
      some ⟨"t", 5, Sentiment.POSITIVE, "e"⟩, true⟩
    ⟨true, true, fun _ => CapResult.ok "t",
      some ⟨"t", 5, Sentiment.POSITIVE, "e"⟩, true⟩
    rfl (by decide)
  exact ⟨h.1, h.2.1⟩

/-- C3: the claim states that every submission whose aggregation step
fails ends with a failed outcome, zero persistence calls and exactly one
failure notification.  The failed outcome and zero persistence hold
everywhere, but the queue worker's `processSubmission` publishes no
failure notification at all (its only publication is the "done"
completion): on the concrete submission content "hello" with a successful
chunk capability and a failed aggregation, the failure-notification count
is 0, not 1. -/
theorem C3_claim_counterexample :
    (processSubmission "hello" (fun _ : Nat => CapResult.ok "s") none
      true).1 = false
    ∧ (processSubmission "hello" (fun _ : Nat => CapResult.ok "s") none
        true).2.saves = 0
    ∧ ¬ (processSubmission "hello" (fun _ : Nat => CapResult.ok "s") none
        true).2.failedNotifications = 1 := by
  refine ⟨rfl, rfl, by decide⟩

/-- C3 (amended): for every submission whose aggregation step fails,
processing ends with a failed outcome and zero persistence calls; the
/screen-deal route publishes exactly one "failed" notification (and no
"done" notification), while the queue worker's `processSubmission`
publishes no notification at all. -/
theorem C3_amended (st : RouteState) (req : ScreenDealRequest) (now : Nat)
    (content : String) (o : EvalDealOracle) (ss : List String)
    (hd : o.dealFound = true) (hs : o.screenerFound = true)
    (hok : evalChunkLoop o.chunkCap (splitContentIntoChunks content) 0 = .ok ss)
    (hagg : o.aggResult = none)
    (hm : (match dedupKeyOf req.messageId with
      | some k => markerUnexpired st.markers k now
      | none => false) = false)
    (hj : markerUnexpired st.markers (jobKeyOf req.jobId) now = false) :
    (evaluateDealAndSaveResult req.dealId req.screenerId content o).success = false
    ∧ (evaluateDealAndSaveResult req.dealId req.screenerId content o).saveAttempts = 0
    ∧ (handleScreenDeal st req now content o).records = st.records
    ∧ ((handleScreenDeal st req now content o).jobUpdates.filter
        (fun u => u.2 == "failed")).length
      = (st.jobUpdates.filter (fun u => u.2 == "failed")).length + 1
    ∧ ((handleScreenDeal st req now content o).jobUpdates.filter
        (fun u => u.2 == "done")).length
      = (st.jobUpdates.filter (fun u => u.2 == "done")).length
    ∧ (∀ (wContent : String) (wCap : Nat → CapResult) (wSaveOk : Bool),
        processSubmission wContent wCap none wSaveOk
          = (false, ⟨(if (splitContentIntoChunks wContent).length = 0 then 0
              else ((splitContentIntoChunks wContent).filter
                (fun c => c != "")).length), 0, 0, 0⟩)) := by
  have hev := evaluateDealAndSaveResult_agg_failure req.dealId req.screenerId
    content o ss hd hs hok hagg
  have hfresh := handleScreenDeal_fresh st req now content o hm hj
  refine ⟨by rw [hev], by rw [hev], ?_, ?_, ?_, ?_⟩
  · rw [hfresh, hev]
    simp
  · rw [hfresh, hev]
    simp [List.filter]
  · rw [hfresh, hev]
    simp [List.filter]
  · intro wContent wCap wSaveOk
    unfold processSubmission
    by_cases hlen : (splitContentIntoChunks wContent).length = 0
    · simp [hlen]
    · simp [hlen]

/-- C3 witness: the amended theorem applied to a concrete request and
oracle in which the deal and screener exist, the chunk loop succeeds on
content "c", and the aggregation fails. -/
theorem C3_amended_witness :
    (evaluateDealAndSaveResult "d1" "s1" "c"
      ⟨true, true, fun _ => CapResult.ok "t", none, true⟩).success = false
    ∧ (handleScreenDeal ⟨[], 0, []⟩ ⟨"j1", none, "d1", "s1"⟩ 0 "c"
        ⟨true, true, fun _ => CapResult.ok "t", none, true⟩).records = 0 := by
  have h := C3_amended ⟨[], 0, []⟩ ⟨"j1", none, "d1", "s1"⟩ 0 "c"
    ⟨true, true, fun _ => CapResult.ok "t", none, true⟩ ["t"]
    rfl rfl rfl rfl rfl rfl
  exact ⟨h.1, h.2.2.1⟩

/-- C4: the claim states that an empty-content submission yields a failed
outcome, no evaluator call, no persistence call and exactly one "failed"
notification.  All but the last hold; the worker publishes no notification
at all on this path, so the "failed" notification count is 0, not 1. -/
theorem C4_claim_counterexample :
    (processSubmission "" (fun _ : Nat => CapResult.ok "s") none true).1 = false
    ∧ (processSubmission "" (fun _ : Nat => CapResult.ok "s") none
        true).2.saves = 0
    ∧ ¬ (processSubmission "" (fun _ : Nat => CapResult.ok "s") none
        true).2.failedNotifications = 1 := by
  refine ⟨rfl, rfl, by decide⟩

/-- C4 (amended): for every submission whose content is empty — the
chunker returns the empty sequence — `processSubmission` returns a failed
outcome without invoking the evaluator (zero capability calls), makes no
persistence call, and publishes no notification at all (neither "failed"
nor "done"). -/
theorem C4_amended (cap : Nat → CapResult) (agg : Option AIScreeningResult)
    (saveOk : Bool) :
    processSubmission "" cap agg saveOk = (false, ⟨0, 0, 0, 0⟩) := rfl

/-- C5: no transport or processing error terminates the worker: for every
loop state and every pattern of environment outcomes — including an
arbitrary throw anywhere inside the loop body — one iteration of the
worker loop continues (never crashes); and once more than 5 consecutive
errors have accumulated, a thrown error makes the loop wait the longer
10-second cooldown instead of failing permanently. -/
theorem C5_no_error_terminates (s : LoopState) (o : IterOracle) :
    (workerLoopIter s o).isNext = true
    ∧ (o.bodyThrows = true → 5 < s.consecutiveErrors + 1 →
        (workerLoopIter s o).delay = 10000) := by
  constructor
  · unfold workerLoopIter
    split
    · rfl
    split
    · rfl
    · cases hv : (safePopFromQueue o.popAttempts s.queue).1 with
      | none => rfl
      | some str =>
        cases hp : o.parseOk <;> cases hpr : o.processOk <;>
          simp [hp, hpr, IterOutcome.isNext]
  · intro hb hc
    unfold workerLoopIter
    rw [if_pos hb, IterOutcome.delay, if_pos hc]

/-- C5 witness: the theorem applied at a concrete state with 6 consecutive
errors and a throwing iteration: the loop continues and waits 10 seconds. -/
theorem C5_no_error_terminates_witness :
    (workerLoopIter ⟨0, 0, 6, []⟩
      ⟨true, true, true, fun _ => PopAttempt.pops, true, true⟩).isNext = true
    ∧ (workerLoopIter ⟨0, 0, 6, []⟩
      ⟨true, true, true, fun _ => PopAttempt.pops, true, true⟩).delay = 10000 := by
  have h := C5_no_error_terminates ⟨0, 0, 6, []⟩
    ⟨true, true, true, fun _ => PopAttempt.pops, true, true⟩
  exact ⟨h.1, h.2 rfl (by decide)⟩

/-- C6: the reconnect backoff is non-decreasing and bounded: for failure
counts k ≤ k2 (both within the strategy's retry limit), the computed
delays satisfy d ≤ d2 ≤ 3000 ms, and from the third failure on the delay
has plateaued at the 3000 ms cap. -/
theorem C6_backoff_monotone (k k2 d d2 : Nat) (hk : k ≤ k2) (h10 : k2 ≤ 10)
    (h1 : reconnectStrategy k = some d)
    (h2 : reconnectStrategy k2 = some d2) :
    d ≤ d2 ∧ d2 ≤ 3000 ∧ (3 ≤ k → d = 3000) := by
  have hk10 : ¬ k > 10 := by omega
  have hk210 : ¬ k2 > 10 := by omega
  rw [reconnectStrategy, if_neg hk10] at h1
  rw [reconnectStrategy, if_neg hk210] at h2
  injection h1 with h1
  injection h2 with h2
  subst h1
  subst h2
  refine ⟨?_, ?_, ?_⟩
  · have hmul : k * 1000 ≤ k2 * 1000 := by omega
    exact min_le_min hmul (le_refl 3000)
  · exact min_le_right _ _
  · intro h3
    have hcap : (3000 : Nat) ≤ k * 1000 := by omega
    exact min_eq_right hcap

/-- C6 witness: delays for failure counts 2 and 5 are 2000 and 3000 ms. -/
theorem C6_backoff_monotone_witness :
    (2000 : Nat) ≤ 3000 ∧ (3000 : Nat) ≤ 3000 ∧ (3 ≤ 2 → (2000 : Nat) = 3000) :=
  C6_backoff_monotone 2 5 2000 3000 (by decide) (by decide) (by decide)
    (by decide)

/-- C7: every record built for persistence has sentiment POSITIVE,
NEGATIVE or NEUTRAL, and whenever the capability's sentiment is absent or
anything other than "POSITIVE"/"NEGATIVE" (including invalid strings), the
stored sentiment is NEUTRAL. -/
theorem C7_sentiment_invariant (dealId evTitle evExplanation : String)
    (evScore : ℚ) (evSentiment : Option String) (combined : String)
    (screenerId : Option String) :
    ((mkAiScreeningRecord dealId evTitle evExplanation evScore evSentiment
        combined screenerId).sentiment = Sentiment.POSITIVE
      ∨ (mkAiScreeningRecord dealId evTitle evExplanation evScore evSentiment
          combined screenerId).sentiment = Sentiment.NEGATIVE
      ∨ (mkAiScreeningRecord dealId evTitle evExplanation evScore evSentiment
          combined screenerId).sentiment = Sentiment.NEUTRAL)
    ∧ (evSentiment ≠ some "POSITIVE" → evSentiment ≠ some "NEGATIVE" →
        (mkAiScreeningRecord dealId evTitle evExplanation evScore evSentiment
          combined screenerId).sentiment = Sentiment.NEUTRAL) := by
  constructor
  · cases h : sentimentFromEvaluation evSentiment with
    | POSITIVE => exact Or.inl (by simp [mkAiScreeningRecord, h])
    | NEGATIVE => exact Or.inr (Or.inl (by simp [mkAiScreeningRecord, h]))
    | NEUTRAL => exact Or.inr (Or.inr (by simp [mkAiScreeningRecord, h]))
  · intro h1 h2
    show sentimentFromEvaluation evSentiment = Sentiment.NEUTRAL
    cases evSentiment with
    | none => rfl
    | some v =>
      unfold sentimentFromEvaluation
      by_cases hv : v = ""
      · simp [hv]
      · by_cases hp : v = "POSITIVE"
        · exact absurd (by rw [hp]) h1
        · by_cases hn : v = "NEGATIVE"
          · exact absurd (by rw [hn]) h2
          · simp [hv, hp, hn]

/-- C7 witness: an invalid sentiment string is stored as NEUTRAL. -/
theorem C7_sentiment_invariant_witness :
    (mkAiScreeningRecord "d" "t" "e" 5 (some "bogus") "c" none).sentiment
      = Sentiment.NEUTRAL :=
  (C7_sentiment_invariant "d" "t" "e" 5 (some "bogus") "c" none).2
    (by decide) (by decide)

/-- C8: for every non-empty content string the chunker is deterministic
(equal inputs produce the same chunk sequence) and the in-order
concatenation of the chunks reconstructs the original content without
losing any characters. -/
theorem C8_chunk_deterministic_lossless (s t : String) (hne : s ≠ "")
    (hdet : t = s) :
    splitContentIntoChunks t = splitContentIntoChunks s
    ∧ String.join (splitContentIntoChunks s) = s :=
  ⟨by rw [hdet], join_splitContentIntoChunks s⟩

/-- C8 witness: the theorem applied at the concrete content "ab". -/
theorem C8_chunk_deterministic_lossless_witness :
    splitContentIntoChunks "ab" = splitContentIntoChunks "ab"
    ∧ String.join (splitContentIntoChunks "ab") = "ab" :=
  C8_chunk_deterministic_lossless "ab" "ab" (by decide) rfl

lemma safePopFromQueue_some (ora : Nat → PopAttempt) (q : List String)
    (v : String) :
    (safePopFromQueue ora q).1 = some v →
      q = v :: (safePopFromQueue ora q).2 :=
  safePopGo_some ora q MAX_RETRIES 0 v

lemma safePopFromQueue_length (ora : Nat → PopAttempt) (q : List String) :
    (safePopFromQueue ora q).2.length ≤ q.length :=
  safePopGo_length ora q MAX_RETRIES 0

/-- C9: consumption is at-most-once: one worker iteration never grows the
queue (there is no requeue path on any outcome), and whenever the pop
returned a submission, that submission was the queue head and the
resulting queue is exactly the tail — regardless of whether the JSON
decode or the processing subsequently fails. -/
theorem C9_at_most_once (s : LoopState) (o : IterOracle) (s2 : LoopState)
    (d : Nat) (hrun : workerLoopIter s o = .next s2 d) :
    s2.queue.length ≤ s.queue.length
    ∧ (∀ v : String, o.bodyThrows = false →
        (safePopFromQueue o.popAttempts s.queue).1 = some v →
        ((!o.healthy && !o.reconnectOk) = false) →
          s.queue = v :: s2.queue) := by
  unfold workerLoopIter at hrun
  by_cases hb : o.bodyThrows = true
  · rw [if_pos hb] at hrun
    injection hrun with h1 _
    constructor
    · rw [← h1]
    · intro v hb2 _ _
      rw [hb] at hb2
      cases hb2
  · rw [if_neg hb] at hrun
    by_cases hh : (!o.healthy && !o.reconnectOk) = true
    · rw [if_pos hh] at hrun
      injection hrun with h1 _
      constructor
      · rw [← h1]
      · intro v _ _ hh2
        rw [hh] at hh2
        cases hh2
    · rw [if_neg hh] at hrun
      have hqueue : s2.queue = (safePopFromQueue o.popAttempts s.queue).2 := by
        cases hv : (safePopFromQueue o.popAttempts s.queue).1 with
        | none =>
          rw [hv] at hrun
          injection hrun with h1 _
          rw [← h1]
        | some str =>
          rw [hv] at hrun
          by_cases hp : (!o.parseOk) = true
          · rw [if_pos hp] at hrun
            injection hrun with h1 _
            rw [← h1]
          · rw [if_neg hp] at hrun
            by_cases hpr : o.processOk = true
            · rw [if_pos hpr] at hrun
              injection hrun with h1 _
              rw [← h1]
            · rw [if_neg hpr] at hrun
              injection hrun with h1 _
              rw [← h1]
      constructor
      · rw [hqueue]
        exact safePopFromQueue_length o.popAttempts s.queue
      · intro v _ hsome _
        rw [hqueue]
        exact safePopFromQueue_some o.popAttempts s.queue v hsome

/-- C9 witness: the theorem applied at a concrete healthy iteration
popping the single queued submission "x" (whose processing fails):
the queue shrinks to the tail. -/
theorem C9_at_most_once_witness :
    (LoopState.mk 0 1 0 []).queue.length ≤ (LoopState.mk 0 0 0 ["x"]).queue.length
    ∧ (LoopState.mk 0 0 0 ["x"]).queue = "x" :: (LoopState.mk 0 1 0 []).queue := by
  have h := C9_at_most_once ⟨0, 0, 0, ["x"]⟩
    ⟨false, true, true, fun _ => PopAttempt.pops, true, false⟩ ⟨0, 1, 0, []⟩
    WORKER_DELAY_MS rfl
  exact ⟨h.1, h.2 "x" rfl rfl rfl⟩

/-- C10: the persisted score is `null` exactly when the capability's score
is 0 (the JS zero value is falsy, hence treated as absent), and for every
nonzero score it is `Math.round` of that score: the unique integer r with
r - 1/2 ≤ score < r + 1/2 under round-half-up. -/
theorem C10_score_rounding (q : ℚ) (hq : q ≠ 0) :
    storedScore 0 = none
    ∧ storedScore q = some (jsRound q)
    ∧ ((jsRound q : ℚ) - 1 / 2 ≤ q ∧ q < (jsRound q : ℚ) + 1 / 2) := by
  refine ⟨?_, ?_, ?_, ?_⟩
  · simp [storedScore, jsTruthy]
  · simp [storedScore, jsTruthy, hq]
  · have hfl := Int.floor_le (q + 1 / 2)
    rw [jsRound]
    linarith
  · have hfl := Int.lt_floor_add_one (q + 1 / 2)
    rw [jsRound]
    linarith

/-- C10 witness: the score 5/2 is stored as round(5/2) = 3 and the score 0
is stored as null. -/
theorem C10_score_rounding_witness :
    storedScore 0 = none
    ∧ storedScore (5 / 2) = some (jsRound (5 / 2))
    ∧ ((jsRound (5 / 2) : ℚ) - 1 / 2 ≤ (5 / 2 : ℚ)
        ∧ (5 / 2 : ℚ) < (jsRound (5 / 2) : ℚ) + 1 / 2) :=
  C10_score_rounding (5 / 2) (by norm_num)
